import Mathlib

/-!
Verification development for the two-pass JavaScript execution service
(`src/src/main.py` and `src/python-fastapi/src/main.py`).

The service evaluates an untrusted script twice: a trace pass that records
every `httpGet`/`httpRequest` invocation and returns `undefined` for each,
a resolution phase that performs the recorded HTTP calls, and a replay pass
in which the interception function answers from a map keyed by a canonical
serialization of `(url, options)`.

The embedding models JSON-compatible JavaScript values, the three concrete
serializations used for canonical keys (Python `json.dumps` with default
separators, Python `json.dumps(sort_keys=True, separators=(',',':'))`, and
JavaScript `JSON.stringify`), the guest script as a free-monad style tree of
interception calls, the HTTP transport as an explicit stateful collaborator,
and the two `execute_code` request handlers as pure functions.
-/

namespace JsExec

/-- JSON-compatible JavaScript values, plus `undef` for `undefined`.
Numbers are modelled as integers (the claims under study never depend on
non-integral numeric formatting). -/
inductive JsVal : Type where
  | undef : JsVal
  | null : JsVal
  | bool : Bool → JsVal
  | num : Int → JsVal
  | str : String → JsVal
  | arr : List JsVal → JsVal
  | obj : List (String × JsVal) → JsVal
deriving Repr

mutual

/-- Decidable structural equality on `JsVal`. -/
def JsVal.beq : JsVal → JsVal → Bool
  | .undef, .undef => true
  | .null, .null => true
  | .bool a, .bool b => a == b
  | .num a, .num b => a == b
  | .str a, .str b => a == b
  | .arr a, .arr b => JsVal.beqList a b
  | .obj a, .obj b => JsVal.beqFields a b
  | _, _ => false

/-- Elementwise equality of value lists. -/
def JsVal.beqList : List JsVal → List JsVal → Bool
  | [], [] => true
  | a :: as', b :: bs' => JsVal.beq a b && JsVal.beqList as' bs'
  | _, _ => false

/-- Elementwise equality of field lists. -/
def JsVal.beqFields : List (String × JsVal) → List (String × JsVal) → Bool
  | [], [] => true
  | (ka, va) :: as', (kb, vb) :: bs' => ka == kb && JsVal.beq va vb && JsVal.beqFields as' bs'
  | _, _ => false

end

instance : BEq JsVal := ⟨JsVal.beq⟩

/-- Left brace character as text (used when rendering JSON objects). -/
def lbrace : String := "\x7b"

/-- Right brace character as text (used when rendering JSON objects). -/
def rbrace : String := "\x7d"

/-- JSON escaping of one character, shared by the Python and JavaScript
serializers (the characters appearing in this development are escaped the
same way by both). -/
def escChar (c : Char) : String :=
  if c = '"' then "\\\""
  else if c = '\\' then "\\\\"
  else if c = '\n' then "\\n"
  else if c = '\t' then "\\t"
  else if c = '\r' then "\\r"
  else String.singleton c

/-- JSON rendering of a string literal, with surrounding quotes. -/
def escStr (s : String) : String :=
  "\"" ++ String.join (s.data.map escChar) ++ "\""

/-- Join a list of already-rendered items with a separator. -/
def joinSep (sep : String) : List String → String
  | [] => ""
  | [x] => x
  | x :: xs => x ++ sep ++ joinSep sep xs

/-- Codepoint-lexicographic comparison of strings, the order Python uses
when sorting `str` keys. -/
def charsLe : List Char → List Char → Bool
  | [], _ => true
  | _ :: _, [] => false
  | a :: as', b :: bs' =>
      if a.toNat < b.toNat then true
      else if b.toNat < a.toNat then false
      else charsLe as' bs'

/-- String form of `charsLe`. -/
def strLe (a b : String) : Bool := charsLe a.data b.data

/-- Insert a rendered field into a key-sorted list of rendered fields. -/
def insertSorted (p : String × String) :
    List (String × String) → List (String × String)
  | [] => [p]
  | q :: qs => if strLe p.1 q.1 then p :: q :: qs else q :: insertSorted p qs

/-- Sort rendered object fields by key, codepoint-lexicographically, as
`json.dumps(..., sort_keys=True)` does (stable insertion sort). -/
def sortFields : List (String × String) → List (String × String)
  | [] => []
  | p :: ps => insertSorted p (sortFields ps)

mutual

/-- Python `json.dumps` on a JSON value. `sp` selects the default
separators `(', ', ': ')` (true) versus the compact `(',', ':')` (false);
`so` selects `sort_keys=True`. The `undef` case is arbitrary: every value
the service passes to `json.dumps` has been produced by a
`JSON.stringify`/`json.loads` round trip and contains no `undef`. -/
def pyDumps (sp so : Bool) : JsVal → String
  | .undef => "null"
  | .null => "null"
  | .bool true => "true"
  | .bool false => "false"
  | .num n => toString n
  | .str s => escStr s
  | .arr xs => "[" ++ joinSep (if sp then ", " else ",") (pyDumpsList sp so xs) ++ "]"
  | .obj fs =>
      let rendered := pyDumpsFields sp so fs
      let rendered := if so then sortFields rendered else rendered
      lbrace ++
        joinSep (if sp then ", " else ",")
          (rendered.map (fun p => escStr p.1 ++ (if sp then ": " else ":") ++ p.2)) ++
        rbrace

/-- Render every element of an array. -/
def pyDumpsList (sp so : Bool) : List JsVal → List String
  | [] => []
  | x :: xs => pyDumps sp so x :: pyDumpsList sp so xs

/-- Render every field of an object, keeping keys for later sorting. -/
def pyDumpsFields (sp so : Bool) : List (String × JsVal) → List (String × String)
  | [] => []
  | (k, v) :: fs => (k, pyDumps sp so v) :: pyDumpsFields sp so fs

end

mutual

/-- JavaScript `JSON.stringify`: compact separators, insertion order,
`undefined` serializes to nothing (`none` at top level). -/
def jsStringify : JsVal → Option String
  | .undef => none
  | .null => some "null"
  | .bool true => some "true"
  | .bool false => some "false"
  | .num n => some (toString n)
  | .str s => some (escStr s)
  | .arr xs => some ("[" ++ joinSep "," (jsStringifyList xs) ++ "]")
  | .obj fs => some (lbrace ++ joinSep "," (jsStringifyFields fs) ++ rbrace)

/-- Array elements: an `undefined` element renders as `null`. -/
def jsStringifyList : List JsVal → List String
  | [] => []
  | x :: xs =>
      (match jsStringify x with
       | some s => s
       | none => "null") :: jsStringifyList xs

/-- Object fields: a field whose value is `undefined` is dropped. -/
def jsStringifyFields : List (String × JsVal) → List String
  | [] => []
  | (k, v) :: fs =>
      (match jsStringify v with
       | some s => [escStr k ++ ":" ++ s]
       | none => []) ++ jsStringifyFields fs

end

mutual

/-- The value seen by the host after `json.loads(JSON.stringify(v))`:
`undefined` disappears (`none` at top level), `undefined` array elements
become `null`, `undefined`-valued object fields are dropped. -/
def jsonNormalize : JsVal → Option JsVal
  | .undef => none
  | .null => some .null
  | .bool b => some (.bool b)
  | .num n => some (.num n)
  | .str s => some (.str s)
  | .arr xs => some (.arr (jsonNormalizeList xs))
  | .obj fs => some (.obj (jsonNormalizeFields fs))

/-- Normalize array elements. -/
def jsonNormalizeList : List JsVal → List JsVal
  | [] => []
  | x :: xs => (jsonNormalize x).getD .null :: jsonNormalizeList xs

/-- Normalize object fields. -/
def jsonNormalizeFields : List (String × JsVal) → List (String × JsVal)
  | [] => []
  | (k, v) :: fs =>
      (match jsonNormalize v with
       | some w => [(k, w)]
       | none => []) ++ jsonNormalizeFields fs

end

/-- JavaScript truthiness on the modelled values. -/
def truthy : JsVal → Bool
  | .undef => false
  | .null => false
  | .bool b => b
  | .num n => n != 0
  | .str s => s ≠ ""
  | .arr _ => true
  | .obj _ => true

/-- The interception functions evaluate `options || \x7b\x7d`. -/
def jsOr (o : JsVal) : JsVal :=
  if truthy o then o else .obj []

/-- First binding of a key in a field list (JavaScript property lookup /
Python dict lookup; the objects handled by the service have unique keys). -/
def lookupField : List (String × JsVal) → String → Option JsVal
  | [], _ => none
  | (k, v) :: fs, key => if k = key then some v else lookupField fs key

/-- Canonical key of the `src/src` variant's resolution-map side:
`json.dumps(\x7b'url': url, 'options': options\x7d)` with default separators
and no key sorting (main.py line 194). -/
def pyKeySrc (u o : JsVal) : String :=
  pyDumps true false (.obj [("url", u), ("options", o)])

/-- Canonical key of the `python-fastapi` variant's resolution-map side:
`json.dumps(\x7b'url': url, 'options': options\x7d, sort_keys=True,
separators=(',', ':'))` (main.py line 206). -/
def pyKeyFast (u o : JsVal) : String :=
  pyDumps false true (.obj [("url", u), ("options", o)])

/-- Canonical key of the `src/src` variant's replay-lookup side:
`JSON.stringify(\x7b url: url, options: options || \x7b\x7d \x7d)`
(main.py line 134). -/
def jsKeySrc (u o : JsVal) : Option String :=
  jsStringify (.obj [("url", u), ("options", jsOr o)])

/-- Canonical key of the `python-fastapi` variant's replay-lookup side:
`JSON.stringify(\x7b 'options': options || \x7b\x7d, 'url': url \x7d)`
(main.py line 139). -/
def jsKeyFast (u o : JsVal) : Option String :=
  jsStringify (.obj [("options", jsOr o), ("url", u)])

/-! ### Guest scripts and the two evaluation passes

A guest script is modelled as a tree: it either produces a value, throws,
or invokes the interception function with a target and options and
continues with whatever value that function returns.  The same tree is
evaluated by both passes, which models the engine's determinism (the
design's documented assumption). -/

/-- A guest script's behaviour in a context binding `INPUTS`: return a
value, throw, or call the interception function and continue. -/
inductive Guest : Type where
  | ret : JsVal → Guest
  | thr : String → Guest
  | call : JsVal → JsVal → (JsVal → Guest) → Guest

/-- Trace pass: each interception call appends
`\x7b url: url, options: options || \x7b\x7d \x7d` to the context's
`__httpRequests` log and returns `undefined` (both variants install this
recorder).  Returns the evaluation outcome and the final log. -/
def runTrace : Guest → List (JsVal × JsVal) → (Except String JsVal × List (JsVal × JsVal))
  | .ret v, log => (.ok v, log)
  | .thr m, log => (.error m, log)
  | .call u o k, log => runTrace (k .undef) (log ++ [(u, jsOr o)])

/-- One recorded entry as the JavaScript object pushed onto
`__httpRequests`. -/
def traceEntry (e : JsVal × JsVal) : JsVal :=
  .obj [("url", e.1), ("options", e.2)]

/-- `json.loads(ctx.eval("JSON.stringify(__httpRequests)"))`: the host's
view of the trace log. -/
def readLog (log : List (JsVal × JsVal)) : List JsVal :=
  log.map (fun e => (jsonNormalize (traceEntry e)).getD .null)

/-- Replay pass: the interception function answers synchronously from a
lookup function and evaluation proceeds; no log is kept. -/
def runReplay (fetch : JsVal → JsVal → JsVal) : Guest → Except String JsVal
  | .ret v => .ok v
  | .thr m => .error m
  | .call u o k => runReplay fetch (k (fetch u o))

/-! ### Transport collaborator and `perform_fetch` -/

/-- What `httpx` hands back when a request completes: status code, reason
phrase, headers, the `response.json()` parse when the body parses as JSON,
and the raw text body. -/
structure TransportResponse where
  status : Int
  reason : String
  headers : List (String × String)
  jsonBody : Option JsVal
  textBody : String

/-- The HTTP transport collaborator, with explicit state `σ` (connection
reuse, call counters, ...).  Arguments: state, method, url, headers, body.
An `Except.error` is an exception raised by the client (connection error,
timeout, invalid argument types). -/
def Transport (σ : Type) : Type :=
  σ → JsVal → JsVal → JsVal → JsVal → (Except String TransportResponse × σ)

/-- The transport-failure envelope built by `perform_fetch`'s `except`
branch (both variants, lines 89-96 / 91-98). -/
def failEnv (msg : String) : JsVal :=
  .obj [("ok", .bool false), ("status", .num 0), ("statusText", .str "Error"),
        ("headers", .obj []), ("error", .str msg)]

/-- The success envelope built by `perform_fetch` (both variants,
lines 82-88 / 84-90): `ok` is `response.is_success`
(`200 ≤ status < 300` in httpx), `data` is the parsed JSON body when the
body parses, else the raw text. -/
def successEnv (r : TransportResponse) : JsVal :=
  .obj [("ok", .bool (decide (200 ≤ r.status ∧ r.status < 300))),
        ("status", .num r.status),
        ("statusText", .str r.reason),
        ("headers", .obj (r.headers.map (fun p => (p.1, JsVal.str p.2)))),
        ("data", r.jsonBody.getD (.str r.textBody))]

/-- The `if options is None: options = \x7b\x7d` replacement at the top of
`perform_fetch` (Python `None` is modelled by `.null`). -/
def pyOptions (options : JsVal) : JsVal :=
  match options with
  | .null => .obj []
  | o => o

/-- `options.get('method', 'GET')` after the `None` replacement. -/
def optMethod (fs : List (String × JsVal)) : JsVal :=
  (lookupField fs "method").getD (.str "GET")

/-- `options.get('headers', \x7b\x7d)`. -/
def optHeaders (fs : List (String × JsVal)) : JsVal :=
  (lookupField fs "headers").getD (.obj [])

/-- `options.get('body')`. -/
def optBody (fs : List (String × JsVal)) : JsVal :=
  (lookupField fs "body").getD .null

/-- `perform_fetch(url, options)` (both variants, lines 50-96 / 52-98).
`options` is the parsed JSON value from the trace log.  Extracting
`method`/`headers`/`body` via `.get` raises on a non-dict `options`; that
raise is caught by the function's own `try` and becomes a failure
envelope, so the function never raises.  Returns the envelope, the
transport state, and the number of dispatched transport calls. -/
def perform_fetch {σ : Type} (t : Transport σ) (s : σ) (url : JsVal) (options : JsVal)
    (n : Nat) : JsVal × σ × Nat :=
  match pyOptions options with
  | .obj fs =>
      let p := t s (optMethod fs) url (optHeaders fs) (optBody fs)
      ((match p.1 with
        | .ok r => successEnv r
        | .error e => failEnv e), p.2, n + 1)
  | _ => (failEnv "AttributeError: object has no attribute get", s, n)

/-! ### Resolution phase -/

/-- Extraction of `(req['url'], req.get('options'))` from one trace-log
entry, as done when building the task list (`KeyError`/`TypeError`
propagate to the handler's outer `except`). -/
def extractCall (req : JsVal) : Except String (JsVal × Option JsVal) :=
  match req with
  | .obj fs =>
      match lookupField fs "url" with
      | some u => .ok (u, lookupField fs "options")
      | none => .error "KeyError: url"
  | _ => .error "TypeError: indices must be integers"

/-- Extraction over the whole trace log (the task-list comprehension runs
eagerly before any request is dispatched). -/
def extractAll : List JsVal → Except String (List (JsVal × Option JsVal))
  | [] => .ok []
  | r :: rs =>
      match extractCall r with
      | .error e => .error e
      | .ok c =>
          match extractAll rs with
          | .error e => .error e
          | .ok cs => .ok (c :: cs)

/-- `asyncio.gather` over one `perform_fetch` task per traced call:
results are collected in task order, one envelope per call, no
short-circuiting (individual failures are already inside envelopes). -/
def fetchAll {σ : Type} (t : Transport σ) :
    List (JsVal × Option JsVal) → σ → Nat → (List JsVal × σ × Nat)
  | [], s, n => ([], s, n)
  | (u, o) :: cs, s, n =>
      let r := perform_fetch t s u (o.getD .null) n
      let rest := fetchAll t cs r.2.1 r.2.2
      (r.1 :: rest.1, rest.2)

/-- Python dict assignment `m[k] = v`: overwrite in place when the key is
present, else append (insertion order is preserved). -/
def dictInsert (m : List (String × JsVal)) (k : String) (v : JsVal) :
    List (String × JsVal) :=
  if k ∈ m.map Prod.fst then
    m.map (fun p => if p.1 = k then (k, v) else p)
  else m ++ [(k, v)]

/-- First binding of a key in the resolution map (keys are unique). -/
def mapFind : List (String × JsVal) → String → Option JsVal
  | [], _ => none
  | (k, v) :: m, key => if k = key then some v else mapFind m key

/-- The `http_results` loop: zip traced calls with their envelopes and
assign `http_results[key] = result`, `key` being the variant's Python-side
canonical key of `(req['url'], req.get('options', \x7b\x7d))`. -/
def buildMap (pyKey : JsVal → JsVal → String) :
    List (JsVal × Option JsVal) → List JsVal → List (String × JsVal) →
    List (String × JsVal)
  | (u, o) :: cs, env :: es, m =>
      buildMap pyKey cs es (dictInsert m (pyKey u (o.getD (.obj []))) env)
  | _, _, m => m

/-- The whole resolution phase: dispatch every traced call, then build the
canonical-key-indexed results map. -/
def resolvePhase {σ : Type} (pyKey : JsVal → JsVal → String) (t : Transport σ)
    (calls : List (JsVal × Option JsVal)) (s : σ) (n : Nat) :
    List (String × JsVal) × σ × Nat :=
  let r := fetchAll t calls s n
  (buildMap pyKey calls r.1 [], r.2)

/-- The replay-context interception function: serialize `(url, options)`
with the variant's JavaScript-side key and look it up in `__httpResults`;
a missing property reads as `undefined`. -/
def replayLookup (jsKey : JsVal → JsVal → Option String)
    (m : List (String × JsVal)) (u o : JsVal) : JsVal :=
  match (jsKey u o).bind (mapFind m) with
  | none => .undef
  | some v => v

/-! ### The request handlers

The engine's evaluation of a code string under an `INPUTS` binding is the
parameter `sem : String → List (String × JsVal) → Guest`; being a
function, it models the documented assumption that guest scripts are
deterministic.  The host-side collaborator state tracks the transport
state together with how many sandbox contexts were created and how many
transport calls were dispatched. -/

/-- Host-side collaborator state threaded through a request. -/
structure HostState (σ : Type) where
  ts : σ
  ctxCount : Nat
  netCount : Nat

/-- A value as it crosses the engine boundary into Python: either a plain
Python value, or an opaque `JSObject` handle (which `py_mini_racer`
returns for non-primitive results). -/
inductive HostVal : Type where
  | py : JsVal → HostVal
  | handle : JsVal → HostVal

/-- `py_mini_racer`'s conversion of an evaluation result: `undefined` and
`null` both become Python `None`; other primitives convert directly;
arrays and objects come back as opaque handles. -/
def miniRacerOf : JsVal → HostVal
  | .undef => .py .null
  | .null => .py .null
  | .bool b => .py (.bool b)
  | .num n => .py (.num n)
  | .str s => .py (.str s)
  | .arr xs => .handle (.arr xs)
  | .obj fs => .handle (.obj fs)

/-- The duck-typed `'JSObject' in str(type(result))` check. -/
def isJSObject : JsVal → Bool
  | .arr _ => true
  | .obj _ => true
  | _ => false

/-- Outcome of one `/execute` request: a 200 with a result, a 400 with the
detail string, or a 500 whose detail carries the underlying message in its
`message` field. -/
inductive ExecResult : Type where
  | ok : HostVal → ExecResult
  | clientError : String → ExecResult
  | serverError : String → ExecResult

/-- Backtick character (codepoint 96). -/
def btick : Char := Char.ofNat 96

/-- `request.code.replace(chr(96), '\\' + chr(96)).replace('$', '\\$')`:
the escaping applied before re-evaluating the source inside a template
literal.  The two sequential replaces are rendered as one character scan:
the first replace introduces no `$` and the second introduces no backtick,
so the scans commute. -/
def escTempl (s : String) : String :=
  ⟨(s.data.map (fun c => if c = btick ∨ c = '$' then ['\\', c] else [c])).flatten⟩

/-- The engine's reading of the escaped source inside a template literal:
a backslash makes the following character literal.  (This agrees with
JavaScript template-literal semantics on every string `escTempl` produces
from a backslash-free source.) -/
def unescChars : List Char → List Char
  | [] => []
  | '\\' :: c :: rest => c :: unescChars rest
  | c :: rest => c :: unescChars rest

/-- String form of `unescChars`. -/
def unescTempl (s : String) : String := ⟨unescChars s.data⟩

/-- Resolution plus replay of the `src/src` variant (lines 184-204):
extract the task arguments, dispatch every traced call, build the
`pyKeySrc`-keyed map, and re-evaluate the code in a fresh context whose
interception function looks up `jsKeySrc`. -/
def afterTraceSrc {σ : Type} (t : Transport σ)
    (sem : String → List (String × JsVal) → Guest)
    (code : String) (inputs : List (String × JsVal)) (reqs : List JsVal)
    (st : HostState σ) : ExecResult × HostState σ :=
  match extractAll reqs with
  | .error e => (.serverError e, st)
  | .ok calls =>
      let r := resolvePhase pyKeySrc t calls st.ts st.netCount
      let st2 : HostState σ := ⟨r.2.1, st.ctxCount + 1, r.2.2⟩
      match runReplay (replayLookup jsKeySrc r.1) (sem code inputs) with
      | .ok v => (.ok (miniRacerOf v), st2)
      | .error msg => (.serverError msg, st2)

/-- `src/src/main.py` `execute_code` (lines 143-210): validate, trace
pass, fast path on an empty trace log, otherwise resolution and replay
keyed by `pyKeySrc`/`jsKeySrc`. -/
def execute_code_src {σ : Type} (t : Transport σ)
    (sem : String → List (String × JsVal) → Guest)
    (code : String) (inputs : List (String × JsVal)) (st : HostState σ) :
    ExecResult × HostState σ :=
  if code = "" then (.clientError "Invalid code parameter", st)
  else
    let st1 : HostState σ := ⟨st.ts, st.ctxCount + 1, st.netCount⟩
    let tr := runTrace (sem code inputs) []
    let reqs := readLog tr.2
    match tr.1 with
    | .ok v =>
        if reqs.isEmpty then (.ok (miniRacerOf v), st1)
        else afterTraceSrc t sem code inputs reqs st1
    | .error msg =>
        if reqs.isEmpty then (.serverError msg, st1)
        else afterTraceSrc t sem code inputs reqs st1

/-- The `python-fastapi` variant's `JSObject` post-processing applied to a
successful replay value (lines 216-221): when the result is an opaque
handle, evaluate the whole escaped source once more in the same context,
`JSON.stringify` the value, and `json.loads` it when truthy, else keep the
handle. -/
def materializeFast (again : Except String JsVal) (v : JsVal) :
    Except String HostVal :=
  match again with
  | .error m => .error m
  | .ok v2 =>
      match jsonNormalize v2 with
      | some w => .ok (.py w)
      | none => .ok (.handle v)

/-- Resolution plus replay of the `python-fastapi` variant (lines
196-225): like the `src/src` variant but keyed by `pyKeyFast`/`jsKeyFast`,
and with the `JSObject` re-evaluation step on the replay result.  A raise
during that step propagates to the handler's outer `except` (500). -/
def afterTraceFast {σ : Type} (t : Transport σ)
    (sem : String → List (String × JsVal) → Guest)
    (code : String) (inputs : List (String × JsVal)) (reqs : List JsVal)
    (st : HostState σ) : ExecResult × HostState σ :=
  match extractAll reqs with
  | .error e => (.serverError e, st)
  | .ok calls =>
      let r := resolvePhase pyKeyFast t calls st.ts st.netCount
      let st2 : HostState σ := ⟨r.2.1, st.ctxCount + 1, r.2.2⟩
      let look := replayLookup jsKeyFast r.1
      match runReplay look (sem code inputs) with
      | .error msg => (.serverError msg, st2)
      | .ok v =>
          if isJSObject v then
            match materializeFast
                (runReplay look (sem (unescTempl (escTempl code)) inputs)) v with
            | .ok w => (.ok w, st2)
            | .error m2 => (.serverError m2, st2)
          else (.ok (miniRacerOf v), st2)

/-- `python-fastapi/src/main.py` `execute_code` (lines 152-236).  The fast
path additionally re-evaluates the escaped source in the same trace
context when the result is an opaque handle (lines 179-184); if that
re-evaluation raises, control reaches the `except` branch (line 185),
which re-reads the log — now extended by whatever calls the re-evaluation
recorded — and either re-raises (500) on an empty log or proceeds to
resolution. -/
def execute_code_fastapi {σ : Type} (t : Transport σ)
    (sem : String → List (String × JsVal) → Guest)
    (code : String) (inputs : List (String × JsVal)) (st : HostState σ) :
    ExecResult × HostState σ :=
  if code = "" then (.clientError "Invalid code parameter", st)
  else
    let st1 : HostState σ := ⟨st.ts, st.ctxCount + 1, st.netCount⟩
    let tr := runTrace (sem code inputs) []
    match tr.1 with
    | .ok v =>
        let reqs := readLog tr.2
        if reqs.isEmpty then
          if isJSObject v then
            let tr2 := runTrace (sem (unescTempl (escTempl code)) inputs) tr.2
            match tr2.1 with
            | .ok v2 =>
                (match jsonNormalize v2 with
                 | some w => (.ok (.py w), st1)
                 | none => (.ok (.handle v), st1))
            | .error m2 =>
                let reqs2 := readLog tr2.2
                if reqs2.isEmpty then (.serverError m2, st1)
                else afterTraceFast t sem code inputs reqs2 st1
          else (.ok (miniRacerOf v), st1)
        else afterTraceFast t sem code inputs reqs st1
    | .error msg =>
        let reqs := readLog tr.2
        if reqs.isEmpty then (.serverError msg, st1)
        else afterTraceFast t sem code inputs reqs st1

/-! ### Concrete collaborators and guests used as test vectors -/

/-- Field access on an envelope object (JavaScript property read /
Python dict indexing), used to state envelope-shape properties. -/
def envField (e : JsVal) (k : String) : Option JsVal :=
  match e with
  | .obj fs => lookupField fs k
  | _ => none

/-- Does `perform_fetch` reach the transport for these parsed options?
True exactly when the `None`-replaced options value is a dict. -/
def isDict : JsVal → Bool
  | .obj _ => true
  | _ => false

/-- A stateless transport that always answers 200 with a JSON body. -/
def transportOK : Transport Unit := fun s _ _ _ _ =>
  (.ok ⟨200, "OK", [], some (.obj [("title", .str "Sample")]), "ignored"⟩, s)

/-- A transport whose state counts how often it was invoked; its responses
do not depend on that state. -/
def transportCounting : Transport Nat := fun s _ _ _ _ =>
  (.ok ⟨200, "OK", [], none, "body"⟩, s + 1)

/-- A guest that issues the same interception call twice with identical
arguments and returns both observed values. -/
def guestTwoIdenticalCalls : Guest :=
  .call (.str "http://a") .undef (fun x =>
    .call (.str "http://a") .undef (fun y => .ret (.arr [x, y])))

/-- Engine semantics mapping every code string to
`guestTwoIdenticalCalls`. -/
def semTwoCalls : String → List (String × JsVal) → Guest :=
  fun _ _ => guestTwoIdenticalCalls

/-- A guest that issues one interception call with omitted options and
returns the observed value. -/
def guestOneCall : Guest :=
  .call (.str "http://a") .undef (fun x => .ret x)

/-- Engine semantics mapping every code string to `guestOneCall`. -/
def semOneCall : String → List (String × JsVal) → Guest :=
  fun _ _ => guestOneCall

/-- A guest that issues one interception call whose options carry keys in
non-sorted insertion order. -/
def guestUnsortedOptions : Guest :=
  .call (.str "u") (.obj [("b", .num 1), ("a", .num 2)]) (fun x => .ret x)

/-- Engine semantics mapping every code string to
`guestUnsortedOptions`. -/
def semUnsorted : String → List (String × JsVal) → Guest :=
  fun _ _ => guestUnsortedOptions

/-- Engine semantics for a script that makes no calls and returns 42. -/
def semNum : String → List (String × JsVal) → Guest :=
  fun _ _ => .ret (.num 42)

/-- Engine semantics for a script that makes no calls and returns the
object `\x7b a: 1 \x7d`. -/
def semObj : String → List (String × JsVal) → Guest :=
  fun _ _ => .ret (.obj [("a", .num 1)])

/-- Engine semantics for a script that throws before any call. -/
def semThrow : String → List (String × JsVal) → Guest :=
  fun _ _ => .thr "boom"

/-! ## Theorems -/

/-- Reading the trace log back preserves (non-)emptiness. -/
theorem readLog_isEmpty (log : List (JsVal × JsVal)) :
    (readLog log).isEmpty = log.isEmpty := by
  cases log <;> rfl

/-- C5: a request whose `code` is the empty string is rejected with the
400 detail `"Invalid code parameter"` before anything happens: no sandbox
context is created, no transport call is made, and the collaborator state
is returned untouched, in both implementations.  (A non-string `code` is
rejected even earlier, by pydantic model validation, before the handler
runs; the model therefore takes `code` as a string.) -/
theorem empty_code_rejected_before_sandbox {σ : Type} (t : Transport σ)
    (sem : String → List (String × JsVal) → Guest)
    (inputs : List (String × JsVal)) (st : HostState σ) :
    execute_code_src t sem "" inputs st = (.clientError "Invalid code parameter", st) ∧
    execute_code_fastapi t sem "" inputs st = (.clientError "Invalid code parameter", st) := by
  constructor <;> rfl

/-- C2: the canonical key computed on the resolution-map side differs from
the canonical key computed on the replay-lookup side.  In the `src/src`
variant the Python side uses `json.dumps`'s default `', '`/`': '`
separators while `JSON.stringify` is compact, so even a call with empty
options never matches.  In the `python-fastapi` variant the Python side
sorts keys at every nesting level while the JavaScript side keeps
insertion order inside `options`, so any options object with unsorted keys
misses.  End to end, the replay pass of `src/src` observes `undefined`
(Python `None`) instead of the resolved envelope for a plain one-call
script, and so does `python-fastapi` for options `\x7bb:1,a:2\x7d`. -/
theorem canonical_key_asymmetry_bug :
    pyKeySrc (.str "http://a") (.obj []) ≠
      (jsKeySrc (.str "http://a") (.obj [])).getD "" ∧
    pyKeyFast (.str "u") (.obj [("b", .num 1), ("a", .num 2)]) ≠
      (jsKeyFast (.str "u") (.obj [("b", .num 1), ("a", .num 2)])).getD "" ∧
    (execute_code_src transportOK semOneCall "c" [] ⟨(), 0, 0⟩).1 = .ok (.py .null) ∧
    (execute_code_fastapi transportOK semUnsorted "c" [] ⟨(), 0, 0⟩).1 = .ok (.py .null) := by
  exact ⟨by decide, by decide, rfl, rfl⟩

/-- C1 counterexample: a guest issuing the same call twice with identical
target and options causes two real transport dispatches, not the single
one the claim asserts — neither implementation deduplicates the traced
calls before dispatching. -/
theorem duplicate_calls_dispatch_twice :
    (execute_code_src transportOK semTwoCalls "c" [] ⟨(), 0, 0⟩).2.netCount = 2 ∧
    (execute_code_fastapi transportOK semTwoCalls "c" [] ⟨(), 0, 0⟩).2.netCount = 2 ∧
    (execute_code_src transportOK semTwoCalls "c" [] ⟨(), 0, 0⟩).2.netCount ≠ 1 := by
  exact ⟨rfl, rfl, by decide⟩

/-- Dispatch count of one `perform_fetch` task: the transport is invoked
exactly once when the parsed options are a dict (or absent), and never
otherwise. -/
theorem perform_fetch_netCount {σ : Type} (t : Transport σ) (s : σ)
    (u o : JsVal) (n : Nat) :
    (perform_fetch t s u o n).2.2 = if isDict (pyOptions o) then n + 1 else n := by
  unfold perform_fetch
  cases h : pyOptions o <;> simp [isDict, h]

/-- C1 (amended): one real transport call is dispatched per traced
occurrence — the resolution phase does not coalesce identical calls — and
during replay every occurrence of the same target/options pair observes
the same value, because the replay interception function is a pure lookup
keyed on the serialized pair. -/
theorem one_dispatch_per_occurrence {σ : Type} (t : Transport σ)
    (calls : List (JsVal × Option JsVal)) (s : σ) (n : Nat)
    (jk : JsVal → JsVal → Option String) (m : List (String × JsVal))
    (u o : JsVal) (k : JsVal → JsVal → Guest) :
    (fetchAll t calls s n).2.2 =
      n + calls.countP (fun c => isDict (pyOptions (c.2.getD .null))) ∧
    runReplay (replayLookup jk m)
        (.call u o fun a => .call u o fun b => k a b) =
      runReplay (replayLookup jk m)
        (k (replayLookup jk m u o) (replayLookup jk m u o)) := by
  constructor
  · induction calls generalizing s n with
    | nil => simp [fetchAll]
    | cons c cs ih =>
        obtain ⟨cu, co⟩ := c
        simp only [fetchAll, List.countP_cons]
        rw [ih, perform_fetch_netCount]
        by_cases h : isDict (pyOptions (co.getD .null))
        · simp [h]
          omega
        · simp [h]
  · rfl

/-- C6: `perform_fetch` is total — modelled as a function, mirroring that
every exception is caught inside it — and its value is always one of the
two envelope shapes: on any transport-level failure (including a raise
while extracting options fields) the exact failure envelope
`\x7bok: false, status: 0, statusText: "Error", headers: \x7b\x7d,
error: msg\x7d`, and on transport success the envelope whose `ok` field is
true exactly when the status code is a 2xx success status and whose `data`
field is the parsed JSON body when the body parses, else the raw text
body. -/
theorem perform_fetch_envelope_shape {σ : Type} (t : Transport σ) (s : σ)
    (u o : JsVal) (n : Nat) :
    (∃ msg : String,
      (perform_fetch t s u o n).1 = failEnv msg ∧
      envField (failEnv msg) "ok" = some (.bool false) ∧
      envField (failEnv msg) "status" = some (.num 0) ∧
      envField (failEnv msg) "statusText" = some (.str "Error") ∧
      envField (failEnv msg) "headers" = some (.obj []) ∧
      envField (failEnv msg) "error" = some (.str msg)) ∨
    (∃ (fs : List (String × JsVal)) (r : TransportResponse),
      pyOptions o = .obj fs ∧
      (t s (optMethod fs) u (optHeaders fs) (optBody fs)).1 = .ok r ∧
      (perform_fetch t s u o n).1 = successEnv r ∧
      (envField (successEnv r) "ok" = some (.bool true) ↔
        200 ≤ r.status ∧ r.status < 300) ∧
      envField (successEnv r) "status" = some (.num r.status) ∧
      envField (successEnv r) "statusText" = some (.str r.reason) ∧
      envField (successEnv r) "data" = some (r.jsonBody.getD (.str r.textBody))) := by
  have hfail : ∀ msg : String,
      envField (failEnv msg) "ok" = some (.bool false) ∧
      envField (failEnv msg) "status" = some (.num 0) ∧
      envField (failEnv msg) "statusText" = some (.str "Error") ∧
      envField (failEnv msg) "headers" = some (.obj []) ∧
      envField (failEnv msg) "error" = some (.str msg) := by
    intro msg
    refine ⟨rfl, rfl, rfl, rfl, ?_⟩
    rfl
  unfold perform_fetch
  cases hp : pyOptions o with
  | obj fs =>
      cases ht : (t s (optMethod fs) u (optHeaders fs) (optBody fs)).1 with
      | ok r =>
          refine Or.inr ⟨fs, r, rfl, ht, by simp [ht], ?_, rfl, rfl, rfl⟩
          constructor
          · intro h
            have hb : JsVal.bool (decide (200 ≤ r.status ∧ r.status < 300)) =
                JsVal.bool true := by
              have := h
              simpa [envField, successEnv, lookupField] using this
            have := JsVal.bool.inj hb
            exact of_decide_eq_true this
          · intro h
            have : decide (200 ≤ r.status ∧ r.status < 300) = true :=
              decide_eq_true h
            simp [envField, successEnv, lookupField, this]
      | error e =>
          exact Or.inl ⟨e, by simp [ht], hfail e⟩
  | undef => exact Or.inl ⟨_, rfl, hfail _⟩
  | null => exact Or.inl ⟨_, rfl, hfail _⟩
  | bool b => exact Or.inl ⟨_, rfl, hfail _⟩
  | num m => exact Or.inl ⟨_, rfl, hfail _⟩
  | str s' => exact Or.inl ⟨_, rfl, hfail _⟩
  | arr xs => exact Or.inl ⟨_, rfl, hfail _⟩

/-- C3: when the guest makes zero interception calls and the trace-pass
evaluation succeeds, both implementations return the trace-pass result
from that single pass: exactly one sandbox context is created, the
transport is never touched and its state is returned unchanged.  (In the
`python-fastapi` variant a non-primitive result is materialized inside the
same context by one `JSON.stringify`/`json.loads` round trip of the
re-evaluated source — the hypothesis `hrt` states that the
backtick/dollar escaping reconstructs the original source, which holds for
every backslash-free code string.) -/
theorem fast_path_single_pass {σ : Type} (t : Transport σ)
    (sem : String → List (String × JsVal) → Guest)
    (code : String) (inputs : List (String × JsVal)) (st : HostState σ) (v : JsVal)
    (hc : code ≠ "") (hrt : unescTempl (escTempl code) = code)
    (h : runTrace (sem code inputs) [] = (.ok v, [])) :
    execute_code_src t sem code inputs st =
      (.ok (miniRacerOf v), ⟨st.ts, st.ctxCount + 1, st.netCount⟩) ∧
    execute_code_fastapi t sem code inputs st =
      ((if isJSObject v then
          match jsonNormalize v with
          | some w => ExecResult.ok (.py w)
          | none => ExecResult.ok (.handle v)
        else .ok (miniRacerOf v)), ⟨st.ts, st.ctxCount + 1, st.netCount⟩) := by
  constructor
  · simp [execute_code_src, hc, h, readLog]
  · simp only [execute_code_fastapi, if_neg hc, h, hrt, readLog, List.map_nil,
      List.isEmpty_nil, if_true]
    by_cases hv : isJSObject v = true
    · simp only [hv, if_true]
      cases hn : jsonNormalize v <;> simp [hn]
    · simp [hv]

/-- C10: on a request whose guest makes zero interception calls and whose
evaluation result is a primitive (non-object) value, the two
implementations agree exactly, result and collaborator state alike. -/
theorem variants_agree_on_primitive_fast_path {σ : Type} (t : Transport σ)
    (sem : String → List (String × JsVal) → Guest)
    (code : String) (inputs : List (String × JsVal)) (st : HostState σ) (v : JsVal)
    (h : runTrace (sem code inputs) [] = (.ok v, []))
    (hp : isJSObject v = false) :
    execute_code_src t sem code inputs st = execute_code_fastapi t sem code inputs st := by
  by_cases hc : code = ""
  · simp [execute_code_src, execute_code_fastapi, hc]
  · simp [execute_code_src, execute_code_fastapi, hc, h, hp, readLog]

/-- C4: during the trace pass, a raise with an empty trace log fails the
request with a 500 whose message is the underlying one, while a non-empty
trace log sends the request to the resolution-and-replay continuation
(`afterTraceSrc`/`afterTraceFast`) regardless of whether trace evaluation
succeeded or raised, in both implementations. -/
theorem trace_raise_policy {σ : Type} (t : Transport σ)
    (sem : String → List (String × JsVal) → Guest)
    (code : String) (inputs : List (String × JsVal)) (st : HostState σ)
    (hc : code ≠ "") :
    (∀ msg : String, runTrace (sem code inputs) [] = (.error msg, []) →
      execute_code_src t sem code inputs st =
        (.serverError msg, ⟨st.ts, st.ctxCount + 1, st.netCount⟩) ∧
      execute_code_fastapi t sem code inputs st =
        (.serverError msg, ⟨st.ts, st.ctxCount + 1, st.netCount⟩)) ∧
    (∀ (res : Except String JsVal) (lg : List (JsVal × JsVal)),
      runTrace (sem code inputs) [] = (res, lg) → lg ≠ [] →
      execute_code_src t sem code inputs st =
        afterTraceSrc t sem code inputs (readLog lg)
          ⟨st.ts, st.ctxCount + 1, st.netCount⟩ ∧
      execute_code_fastapi t sem code inputs st =
        afterTraceFast t sem code inputs (readLog lg)
          ⟨st.ts, st.ctxCount + 1, st.netCount⟩) := by
  constructor
  · intro msg h
    constructor
    · simp [execute_code_src, hc, h, readLog]
    · simp [execute_code_fastapi, hc, h, readLog]
  · intro res lg h hlg
    have hne : (readLog lg).isEmpty = false := by
      rw [readLog_isEmpty]
      simpa [List.isEmpty_iff] using hlg
    cases res with
    | ok v =>
        constructor
        · simp [execute_code_src, hc, h, hne]
        · simp [execute_code_fastapi, hc, h, hne]
    | error msg =>
        constructor
        · simp [execute_code_src, hc, h, hne]
        · simp [execute_code_fastapi, hc, h, hne]

/-- Dict assignment either rewrites an existing binding in place or
appends a new one; the key list changes accordingly. -/
theorem dictInsert_keys (m : List (String × JsVal)) (k : String) (v : JsVal) :
    (dictInsert m k v).map Prod.fst =
      if k ∈ m.map Prod.fst then m.map Prod.fst else m.map Prod.fst ++ [k] := by
  unfold dictInsert
  split
  · rw [List.map_map]
    refine List.map_congr_left ?_
    intro p _
    by_cases h : p.1 = k <;> simp [h]
  · simp [if_neg ‹_›]

/-- Dict assignment preserves key uniqueness. -/
theorem dictInsert_keys_nodup {m : List (String × JsVal)} (k : String) (v : JsVal)
    (h : (m.map Prod.fst).Nodup) : ((dictInsert m k v).map Prod.fst).Nodup := by
  rw [dictInsert_keys]
  split
  · exact h
  · simp [List.nodup_append, h, ‹¬ _›]

/-- The assigned key is bound after assignment. -/
theorem mem_dictInsert_keys_self (m : List (String × JsVal)) (k : String) (v : JsVal) :
    k ∈ (dictInsert m k v).map Prod.fst := by
  rw [dictInsert_keys]
  split
  · assumption
  · simp

/-- Dict assignment never removes a bound key. -/
theorem mem_dictInsert_keys_mono {m : List (String × JsVal)} {k' : String}
    (k : String) (v : JsVal) (h : k' ∈ m.map Prod.fst) :
    k' ∈ (dictInsert m k v).map Prod.fst := by
  rw [dictInsert_keys]
  split
  · exact h
  · simp [h]

/-- Key uniqueness is an invariant of the whole results-map loop. -/
theorem buildMap_keys_nodup (pk : JsVal → JsVal → String) :
    ∀ (cs : List (JsVal × Option JsVal)) (es : List JsVal)
      (m : List (String × JsVal)), (m.map Prod.fst).Nodup →
      ((buildMap pk cs es m).map Prod.fst).Nodup
  | [], es, m, h => by
      cases es <;> exact h
  | c :: cs, [], m, h => h
  | (u, o) :: cs, e :: es, m, h =>
      buildMap_keys_nodup pk cs es _ (dictInsert_keys_nodup _ _ h)

/-- The results-map loop never removes a bound key. -/
theorem buildMap_keys_mono (pk : JsVal → JsVal → String) :
    ∀ (cs : List (JsVal × Option JsVal)) (es : List JsVal)
      (m : List (String × JsVal)) (k : String), k ∈ m.map Prod.fst →
      k ∈ (buildMap pk cs es m).map Prod.fst
  | [], es, m, k, h => by cases es <;> exact h
  | c :: cs, [], m, k, h => h
  | (u, o) :: cs, e :: es, m, k, h =>
      buildMap_keys_mono pk cs es _ k (mem_dictInsert_keys_mono _ _ h)

/-- After the loop, the canonical key of every traced call that was paired
with an envelope is bound in the results map. -/
theorem buildMap_keys_complete (pk : JsVal → JsVal → String) :
    ∀ (cs : List (JsVal × Option JsVal)) (es : List JsVal)
      (m : List (String × JsVal)) (c : JsVal × Option JsVal),
      c ∈ cs → es.length = cs.length →
      pk c.1 (c.2.getD (.obj [])) ∈ (buildMap pk cs es m).map Prod.fst
  | [], es, m, c, hc, _ => absurd hc (List.not_mem_nil c)
  | c' :: cs, [], m, c, hc, hlen => by simp at hlen
  | (u, o) :: cs, e :: es, m, c, hc, hlen => by
      rcases List.mem_cons.mp hc with h | h
      · subst h
        exact buildMap_keys_mono pk cs es _ _ (mem_dictInsert_keys_self _ _ _)
      · exact buildMap_keys_complete pk cs es _ c h (by simpa using hlen)

/-- Every task yields exactly one envelope: the fan-in join waits for all
of them and no failure short-circuits the list. -/
theorem fetchAll_length {σ : Type} (t : Transport σ) :
    ∀ (calls : List (JsVal × Option JsVal)) (s : σ) (n : Nat),
      (fetchAll t calls s n).1.length = calls.length
  | [], _, _ => rfl
  | (u, o) :: cs, s, n => by
      simp only [fetchAll, List.length_cons]
      rw [fetchAll_length t cs]

/-- C7: the resolution phase produces exactly one envelope per traced call
(no short-circuit on failures — `perform_fetch` never raises, so the join
always collects the full list), and the resulting map binds each distinct
canonical key exactly once, with a binding present for the canonical key
of every traced call. -/
theorem resolution_map_complete {σ : Type} (pk : JsVal → JsVal → String)
    (t : Transport σ) (calls : List (JsVal × Option JsVal)) (s : σ) (n : Nat) :
    (fetchAll t calls s n).1.length = calls.length ∧
    (((resolvePhase pk t calls s n).1.map Prod.fst).Nodup) ∧
    (∀ c ∈ calls,
      pk c.1 (c.2.getD (.obj [])) ∈ (resolvePhase pk t calls s n).1.map Prod.fst) := by
  refine ⟨fetchAll_length t calls s n, ?_, ?_⟩
  · exact buildMap_keys_nodup pk calls (fetchAll t calls s n).1 [] (by simp)
  · intro c hc
    exact buildMap_keys_complete pk calls (fetchAll t calls s n).1 [] c hc
      (fetchAll_length t calls s n)

/-- Witness for C7 at a concrete traced-call list with a duplicated key:
three traced occurrences yield three envelopes, and the map binds the two
distinct canonical keys exactly once each. -/
theorem resolution_map_complete_witness :
    (fetchAll transportOK
        [(.str "a", none), (.str "a", none), (.str "b", none)] () 0).1.length = 3 ∧
    ((resolvePhase pyKeyFast transportOK
        [(.str "a", none), (.str "a", none), (.str "b", none)] () 0).1.map Prod.fst).Nodup ∧
    pyKeyFast (.str "a") (.obj []) ∈
      (resolvePhase pyKeyFast transportOK
        [(.str "a", none), (.str "a", none), (.str "b", none)] () 0).1.map Prod.fst := by
  obtain ⟨h1, h2, h3⟩ := resolution_map_complete pyKeyFast transportOK
    [(.str "a", none), (.str "a", none), (.str "b", none)] () 0
  exact ⟨h1, h2, h3 (.str "a", none) (by simp)⟩

/-- When transport responses do not depend on the transport state, one
`perform_fetch` envelope does not either. -/
theorem perform_fetch_fst_const {σ : Type} {t : Transport σ}
    (hconst : ∀ (s₁ s₂ : σ) (m u h b : JsVal), (t s₁ m u h b).1 = (t s₂ m u h b).1)
    (s₁ s₂ : σ) (u o : JsVal) (n₁ n₂ : Nat) :
    (perform_fetch t s₁ u o n₁).1 = (perform_fetch t s₂ u o n₂).1 := by
  unfold perform_fetch
  cases hp : pyOptions o <;> try rfl
  case obj fs =>
    simp only
    rw [hconst s₁ s₂ (optMethod fs) u (optHeaders fs) (optBody fs)]

/-- When transport responses do not depend on the transport state, the
whole envelope list of the fan-out join does not either. -/
theorem fetchAll_fst_const {σ : Type} {t : Transport σ}
    (hconst : ∀ (s₁ s₂ : σ) (m u h b : JsVal), (t s₁ m u h b).1 = (t s₂ m u h b).1) :
    ∀ (calls : List (JsVal × Option JsVal)) (s₁ s₂ : σ) (n₁ n₂ : Nat),
      (fetchAll t calls s₁ n₁).1 = (fetchAll t calls s₂ n₂).1
  | [], _, _, _, _ => rfl
  | (u, o) :: cs, s₁, s₂, n₁, n₂ => by
      simp only [fetchAll]
      rw [perform_fetch_fst_const hconst s₁ s₂ u (o.getD .null) n₁ n₂,
        fetchAll_fst_const hconst cs
          (perform_fetch t s₁ u (o.getD .null) n₁).2.1
          (perform_fetch t s₂ u (o.getD .null) n₂).2.1
          (perform_fetch t s₁ u (o.getD .null) n₁).2.2
          (perform_fetch t s₂ u (o.getD .null) n₂).2.2]

/-- State-independence of the resolution map under constant transport
responses. -/
theorem resolvePhase_fst_const {σ : Type} {t : Transport σ}
    (hconst : ∀ (s₁ s₂ : σ) (m u h b : JsVal), (t s₁ m u h b).1 = (t s₂ m u h b).1)
    (pk : JsVal → JsVal → String) (calls : List (JsVal × Option JsVal))
    (s₁ s₂ : σ) (n₁ n₂ : Nat) :
    (resolvePhase pk t calls s₁ n₁).1 = (resolvePhase pk t calls s₂ n₂).1 := by
  simp only [resolvePhase]
  rw [fetchAll_fst_const hconst calls s₁ s₂ n₁ n₂]

/-- State-independence of the `src/src` resolution-and-replay
continuation's response under constant transport responses. -/
theorem afterTraceSrc_fst_const {σ : Type} {t : Transport σ}
    (hconst : ∀ (s₁ s₂ : σ) (m u h b : JsVal), (t s₁ m u h b).1 = (t s₂ m u h b).1)
    (sem : String → List (String × JsVal) → Guest) (code : String)
    (inputs : List (String × JsVal)) (reqs : List JsVal) (st₁ st₂ : HostState σ) :
    (afterTraceSrc t sem code inputs reqs st₁).1 =
      (afterTraceSrc t sem code inputs reqs st₂).1 := by
  simp only [afterTraceSrc]
  cases hex : extractAll reqs with
  | error e => rfl
  | ok calls =>
      dsimp only
      rw [resolvePhase_fst_const hconst pyKeySrc calls st₁.ts st₂.ts
        st₁.netCount st₂.netCount]
      cases runReplay
          (replayLookup jsKeySrc
            (resolvePhase pyKeySrc t calls st₂.ts st₂.netCount).1)
          (sem code inputs) <;> rfl

/-- State-independence of the `python-fastapi` resolution-and-replay
continuation's response under constant transport responses. -/
theorem afterTraceFast_fst_const {σ : Type} {t : Transport σ}
    (hconst : ∀ (s₁ s₂ : σ) (m u h b : JsVal), (t s₁ m u h b).1 = (t s₂ m u h b).1)
    (sem : String → List (String × JsVal) → Guest) (code : String)
    (inputs : List (String × JsVal)) (reqs : List JsVal) (st₁ st₂ : HostState σ) :
    (afterTraceFast t sem code inputs reqs st₁).1 =
      (afterTraceFast t sem code inputs reqs st₂).1 := by
  simp only [afterTraceFast]
  cases hex : extractAll reqs with
  | error e => rfl
  | ok calls =>
      dsimp only
      rw [resolvePhase_fst_const hconst pyKeyFast calls st₁.ts st₂.ts
        st₁.netCount st₂.netCount]
      cases runReplay
          (replayLookup jsKeyFast
            (resolvePhase pyKeyFast t calls st₂.ts st₂.netCount).1)
          (sem code inputs) with
      | error msg => rfl
      | ok v =>
          by_cases hv : isJSObject v = true
          · simp only [hv, if_true]
            cases materializeFast
                (runReplay
                  (replayLookup jsKeyFast
                    (resolvePhase pyKeyFast t calls st₂.ts st₂.netCount).1)
                  (sem (unescTempl (escTempl code)) inputs)) v <;> rfl
          · simp [hv]

/-- C8: with the engine deterministic (its semantics is a function) and
the transport's responses independent of its own state, running the same
`\x7bcode, inputs\x7d` request twice — at two arbitrary collaborator
states — returns identical responses, in both implementations. -/
theorem execute_idempotent {σ : Type} (t : Transport σ)
    (sem : String → List (String × JsVal) → Guest)
    (code : String) (inputs : List (String × JsVal))
    (hconst : ∀ (s₁ s₂ : σ) (m u h b : JsVal), (t s₁ m u h b).1 = (t s₂ m u h b).1)
    (st₁ st₂ : HostState σ) :
    (execute_code_src t sem code inputs st₁).1 =
      (execute_code_src t sem code inputs st₂).1 ∧
    (execute_code_fastapi t sem code inputs st₁).1 =
      (execute_code_fastapi t sem code inputs st₂).1 := by
  by_cases hc : code = ""
  · constructor <;> simp [execute_code_src, execute_code_fastapi, hc]
  · rcases htr : runTrace (sem code inputs) [] with ⟨res, lg⟩
    constructor
    · simp only [execute_code_src, if_neg hc, htr]
      cases res with
      | ok v =>
          cases hre : (readLog lg).isEmpty
          · simp only [hre, Bool.false_eq_true, if_false]
            exact afterTraceSrc_fst_const hconst sem code inputs (readLog lg) _ _
          · rfl
      | error msg =>
          cases hre : (readLog lg).isEmpty
          · simp only [hre, Bool.false_eq_true, if_false]
            exact afterTraceSrc_fst_const hconst sem code inputs (readLog lg) _ _
          · rfl
    · simp only [execute_code_fastapi, if_neg hc, htr]
      cases res with
      | ok v =>
          cases hre : (readLog lg).isEmpty
          · simp only [hre, Bool.false_eq_true, if_false]
            exact afterTraceFast_fst_const hconst sem code inputs (readLog lg) _ _
          · simp only [hre, if_true]
            by_cases hv : isJSObject v = true
            · simp only [hv, if_true]
              rcases htr2 : runTrace (sem (unescTempl (escTempl code)) inputs) lg
                with ⟨res2, lg2⟩
              cases res2 with
              | ok v2 =>
                  dsimp only
                  cases jsonNormalize v2 <;> rfl
              | error m2 =>
                  cases hre2 : (readLog lg2).isEmpty
                  · simp only [hre2, Bool.false_eq_true, if_false]
                    exact afterTraceFast_fst_const hconst sem code inputs
                      (readLog lg2) _ _
                  · rfl
            · simp [hv]
      | error msg =>
          cases hre : (readLog lg).isEmpty
          · simp only [hre, Bool.false_eq_true, if_false]
            exact afterTraceFast_fst_const hconst sem code inputs (readLog lg) _ _
          · rfl

/-- Witness for C8: a request with one traced call, run at two different
counting-transport states, returns the same response. -/
theorem execute_idempotent_witness :
    (execute_code_src transportCounting semOneCall "c" [] ⟨0, 0, 0⟩).1 =
      (execute_code_src transportCounting semOneCall "c" [] ⟨17, 3, 5⟩).1 ∧
    (execute_code_fastapi transportCounting semOneCall "c" [] ⟨0, 0, 0⟩).1 =
      (execute_code_fastapi transportCounting semOneCall "c" [] ⟨17, 3, 5⟩).1 :=
  execute_idempotent transportCounting semOneCall "c" []
    (fun _ _ _ _ _ _ => rfl) ⟨0, 0, 0⟩ ⟨17, 3, 5⟩

/-- C9: in the `python-fastapi` implementation, whenever an evaluation
pass — fast path or replay — produces an opaque `JSObject` handle, the
handler evaluates the entire escaped source once more inside the same
context and answers with the `json.loads` of its `JSON.stringify`; when
that stringification is empty or null the opaque handle itself is
returned.  The hypothesis `hrt` states that the backtick/dollar escaping
reconstructs the original source, so the re-evaluation runs the same guest
program. -/
theorem fastapi_jsobject_materialization {σ : Type} (t : Transport σ)
    (sem : String → List (String × JsVal) → Guest)
    (code : String) (inputs : List (String × JsVal)) (st : HostState σ)
    (hc : code ≠ "") (hrt : unescTempl (escTempl code) = code) :
    (∀ v : JsVal, runTrace (sem code inputs) [] = (.ok v, []) →
      isJSObject v = true →
      (execute_code_fastapi t sem code inputs st).1 =
        (match jsonNormalize v with
         | some w => ExecResult.ok (.py w)
         | none => ExecResult.ok (.handle v))) ∧
    (∀ (res : Except String JsVal) (lg : List (JsVal × JsVal))
       (calls : List (JsVal × Option JsVal)) (v : JsVal),
      runTrace (sem code inputs) [] = (res, lg) → lg ≠ [] →
      extractAll (readLog lg) = .ok calls →
      runReplay
          (replayLookup jsKeyFast
            (resolvePhase pyKeyFast t calls st.ts st.netCount).1)
          (sem code inputs) = .ok v →
      isJSObject v = true →
      (execute_code_fastapi t sem code inputs st).1 =
        (match jsonNormalize v with
         | some w => ExecResult.ok (.py w)
         | none => ExecResult.ok (.handle v))) := by
  constructor
  · intro v h hv
    simp only [execute_code_fastapi, if_neg hc, h, hrt, readLog, List.map_nil,
      List.isEmpty_nil, if_true, hv]
    cases jsonNormalize v <;> rfl
  · intro res lg calls v h hlg hex hrep hv
    have hne : (readLog lg).isEmpty = false := by
      rw [readLog_isEmpty]
      simpa [List.isEmpty_iff] using hlg
    have hafter :
        (execute_code_fastapi t sem code inputs st).1 =
          (afterTraceFast t sem code inputs (readLog lg)
            ⟨st.ts, st.ctxCount + 1, st.netCount⟩).1 := by
      cases res with
      | ok w => simp [execute_code_fastapi, hc, h, hne]
      | error m => simp [execute_code_fastapi, hc, h, hne]
    rw [hafter]
    simp only [afterTraceFast, hex]
    rw [hrt, hrep]
    simp only [hv, if_true, materializeFast]
    cases jsonNormalize v <;> rfl

/-- Witness for C9: a guest that makes no calls and returns the object
`\x7ba: 1\x7d` exercises the fast-path conjunct; the handler answers with
the materialized plain value. -/
theorem fastapi_jsobject_materialization_witness :
    (execute_code_fastapi transportOK semObj "x" [] ⟨(), 0, 0⟩).1 =
      .ok (.py (.obj [("a", .num 1)])) :=
  (fastapi_jsobject_materialization transportOK semObj "x" [] ⟨(), 0, 0⟩
    (by decide) (by decide)).1 (.obj [("a", .num 1)]) rfl rfl

/-- Witness for C3: a guest that makes no calls and returns 42 takes the
fast path in both implementations, with no transport activity and exactly
one context created. -/
theorem fast_path_single_pass_witness :
    execute_code_src transportOK semNum "x" [] ⟨(), 0, 0⟩ =
      (.ok (.py (.num 42)), ⟨(), 1, 0⟩) ∧
    execute_code_fastapi transportOK semNum "x" [] ⟨(), 0, 0⟩ =
      (.ok (.py (.num 42)), ⟨(), 1, 0⟩) := by
  have h := fast_path_single_pass transportOK semNum "x" [] ⟨(), 0, 0⟩ (.num 42)
    (by decide) (by decide) rfl
  exact ⟨h.1, h.2⟩

/-- Witness for C4: a guest that throws with an empty trace log produces
the 500 carrying its message; a guest that traced one call proceeds to the
resolution-and-replay continuation whether its evaluation succeeded or
not. -/
theorem trace_raise_policy_witness :
    (execute_code_src transportOK semThrow "x" [] ⟨(), 0, 0⟩ =
        (.serverError "boom", ⟨(), 1, 0⟩) ∧
      execute_code_fastapi transportOK semThrow "x" [] ⟨(), 0, 0⟩ =
        (.serverError "boom", ⟨(), 1, 0⟩)) ∧
    (execute_code_src transportOK semOneCall "x" [] ⟨(), 0, 0⟩ =
        afterTraceSrc transportOK semOneCall "x" []
          (readLog [(.str "http://a", .obj [])]) ⟨(), 1, 0⟩ ∧
      execute_code_fastapi transportOK semOneCall "x" [] ⟨(), 0, 0⟩ =
        afterTraceFast transportOK semOneCall "x" []
          (readLog [(.str "http://a", .obj [])]) ⟨(), 1, 0⟩) :=
  ⟨(trace_raise_policy transportOK semThrow "x" [] ⟨(), 0, 0⟩ (by decide)).1
      "boom" rfl,
    (trace_raise_policy transportOK semOneCall "x" [] ⟨(), 0, 0⟩ (by decide)).2
      (.ok .undef) [(.str "http://a", .obj [])]
      rfl (List.cons_ne_nil _ _)⟩

/-- Witness for C10: the 42-returning no-call guest yields the identical
response from both implementations. -/
theorem variants_agree_witness :
    execute_code_src transportOK semNum "c" [] ⟨(), 0, 0⟩ =
      execute_code_fastapi transportOK semNum "c" [] ⟨(), 0, 0⟩ :=
  variants_agree_on_primitive_fast_path transportOK semNum "c" [] ⟨(), 0, 0⟩
    (.num 42) rfl rfl

end JsExec
